import Mathlib

/-!
# actionlint command line driver (cmd/actionlint/main.go)

Shallow embedding of the two functions of the driver, `run` and `main`.

The driver is glue around the linter library (`actionlint.NewLinter`, the
methods of `*actionlint.Linter`), `regexp.Compile`, `ioutil.ReadAll(os.Stdin)`
and the `flag` package.  None of these is part of the driver, so they are
taken as parameters (`Env`): every external operation is a function of
its arguments and of an abstract world state, returning its Go results and the
next world state.  The driver threads the world through its calls and records
every external call and every write to stdout/stderr in a log, so that
"operation X is (not) called" is a statement about the log.

What `flag.Parse()` (line 94) does with the command line is an input of `main`
(`ParseOutcome`): it either returns, leaving the flag values and the remaining
arguments, or ends the process itself.
-/

namespace Actionlint

/-! ## Go values -/

/-- Go `error` value that is not nil: its message, and for an error built with
the `%w` verb the error it wraps. A nilable `error` is `Option GoError`. -/
inductive GoError where
  | leaf (msg : String)
  | wrap (msg : String) (inner : GoError)
deriving DecidableEq, Repr

/-- The method `Error()`: the message of the error. -/
def GoError.Error : GoError → String
  | .leaf m => m
  | .wrap m _ => m

/-- The function `errors.Unwrap`: the wrapped error, if any. -/
def GoError.Unwrap : GoError → Option GoError
  | .leaf _ => none
  | .wrap _ e => some e

/-- The call `fmt.Errorf(pre + "%w", err)` for a format that is a literal text `pre`
followed by the single verb `%w`: the message is `pre` followed by the message
of `err`, and the result wraps `err`. -/
def errorfW (pre : String) (err : GoError) : GoError :=
  .wrap (pre ++ err.Error) err

/-- Go slice value: `nil`, or a slice with elements (possibly none). -/
inductive Slice (α : Type) where
  | nil
  | mk (elems : List α)
deriving DecidableEq, Repr

/-- The builtin `len` on a slice; `len(nil)` is 0. -/
def Slice.len {α : Type} : Slice α → Nat
  | .nil => 0
  | .mk xs => xs.length

/-- Bytes read from a stream. -/
abbrev Bytes := List UInt8

/-! ## Data of the driver -/

/-- The fields of `actionlint.LinterOptions` that the driver sets. `R` is the
type of compiled regular expressions (`*regexp.Regexp`); a nil pointer is
`none`. -/
structure LinterOptions (R : Type) where
  Shellcheck : String
  Oneline : Bool
  ConfigFile : String
  NoColor : Bool
  Verbose : Bool
  Debug : Bool
  IgnorePattern : Option R
deriving DecidableEq, Repr

/-- The variables bound to command line flags in `main` (lines 79-92), holding
their values after `flag.Parse()` has returned. -/
structure Flags where
  ignorePat : String
  shellcheck : String
  oneline : Bool
  configFile : String
  initConfig : Bool
  noColor : Bool
  verbose : Bool
  debug : Bool
  ver : Bool
deriving DecidableEq, Repr

/-- The default value registered for each flag (third argument of
`flag.StringVar` / `flag.BoolVar`, lines 84-92): the value a variable holds
when its flag is absent from the command line. -/
def flagDefaults : Flags where
  ignorePat := ""
  shellcheck := "shellcheck"
  oneline := false
  configFile := ""
  initConfig := false
  noColor := false
  verbose := false
  debug := false
  ver := false

/-- The value of `opts` in `main`: the fields bound to flags hold the flag
values, and `IgnorePattern` is `ip` (nil unless line 107 assigns it). -/
def Flags.toOpts {R : Type} (f : Flags) (ip : Option R) : LinterOptions R where
  Shellcheck := f.shellcheck
  Oneline := f.oneline
  ConfigFile := f.configFile
  NoColor := f.noColor
  Verbose := f.verbose
  Debug := f.debug
  IgnorePattern := ip

/-- What the call `flag.Parse()` at line 94 of `main` does. The flags are
registered on the default flag set, whose error handling is
`flag.ExitOnError`, so the call either
* returns, leaving the flag values `f` in the bound variables and the
  remaining arguments `args` in `flag.Args()`; or
* ends the process itself with exit status `status`, after writing `output`
  to stderr: for a command line it rejects (an undefined flag, a bad or
  missing flag value) the status is 2 and the output is the error message
  followed by the usage text; for `-h` or `-help` the output is the usage
  text. -/
inductive ParseOutcome where
  | parsed (f : Flags) (args : List String)
  | exited (status : Nat) (output : String)
deriving DecidableEq, Repr

/-- What the driver does that is visible from outside: a call of an external
operation with its arguments, the call of `run` made by `main`, or text
written to a standard stream. `P` is the type of `*actionlint.Project`. -/
inductive Event (R P : Type) where
  | compile (pat : String)
  | callRun (args : List String) (opts : LinterOptions R) (initConfig : Bool)
  | newLinter (opts : LinterOptions R)
  | generateDefaultConfig (dir : String)
  | lintRepository (dir : String)
  | readStdin
  | lint (path : String) (content : Bytes) (project : Option P)
  | lintFiles (paths : List String)
  | stdout (text : String)
  | stderr (text : String)
deriving DecidableEq, Repr

/-- State threaded through the driver: the abstract world the external
operations act on, and the log of events so far (oldest first). -/
structure St (σ R P : Type) where
  world : σ
  log : List (Event R P)

/-- Record an event. -/
def St.emit {σ R P : Type} (s : St σ R P) (e : Event R P) : St σ R P :=
  { s with log := s.log ++ [e] }

/-- Replace the world, keeping the log. -/
def St.setWorld {σ R P : Type} (s : St σ R P) (w : σ) : St σ R P :=
  { s with world := w }

/-- The events recorded between state `s` and a later state `t`. -/
def newEvents {σ R P : Type} (s t : St σ R P) : List (Event R P) :=
  t.log.drop s.log.length

/-- Events that analyse a document, write the default configuration or
read standard input: the calls of `GenerateDefaultConfig`, `LintRepository`,
`Lint`, `LintFiles` and `ioutil.ReadAll(os.Stdin)`. -/
def Event.isDocumentOp {R P : Type} : Event R P → Bool
  | .generateDefaultConfig _ => true
  | .lintRepository _ => true
  | .readStdin => true
  | .lint _ _ _ => true
  | .lintFiles _ => true
  | _ => false

/-- Events that are the call of `run` or of `NewLinter`. -/
def Event.isRunOrNewLinter {R P : Type} : Event R P → Bool
  | .callRun _ _ _ => true
  | .newLinter _ => true
  | _ => false

/-- The external operations the driver calls, and the link-time `version`
string. `σ` is the world, `L` is `*actionlint.Linter`, `D` is
`*actionlint.Error` (one diagnostic), `R` is `*regexp.Regexp`, `P` is
`*actionlint.Project`.
* `quote` is the `%q` verb of `fmt` applied to a string;
* `Compile` is `regexp.Compile`;
* `NewLinter opts` is `actionlint.NewLinter(os.Stdout, opts)`;
* `GenerateDefaultConfig`, `LintRepository`, `Lint`, `LintFiles` are the
  methods of the linter, returning their Go result values;
* `ReadAllStdin` is `ioutil.ReadAll(os.Stdin)`. -/
structure Env (σ L D R P : Type) where
  version : String
  quote : String → String
  Compile : String → Except GoError R
  NewLinter : LinterOptions R → σ → Except GoError L × σ
  GenerateDefaultConfig : L → String → σ → Option GoError × σ
  LintRepository : L → String → σ → (Slice D × Option GoError) × σ
  ReadAllStdin : σ → Except GoError Bytes × σ
  Lint : L → String → Bytes → Option P → σ → (Slice D × Option GoError) × σ
  LintFiles : L → List String → σ → (Slice D × Option GoError) × σ

/-! ## The driver -/

section Driver

variable {σ L D R P : Type}

/-- The function `run` (lines 53-76): build the linter, then either generate
the default configuration, lint the repository of the current directory, lint
standard input, or lint the given files. Returns the Go result pair
`([]*actionlint.Error, error)` and the final state. -/
def run (env : Env σ L D R P) (args : List String) (opts : LinterOptions R)
    (initConfig : Bool) (s : St σ R P) : (Slice D × Option GoError) × St σ R P :=
  let s0 := s.emit (.newLinter opts)
  match env.NewLinter opts s0.world with
  | (.error err, w1) => ((.nil, some err), s0.setWorld w1)
  | (.ok l, w1) =>
    let s1 := s0.setWorld w1
    if initConfig then
      let r := env.GenerateDefaultConfig l "." s1.world
      ((.nil, r.1), (s1.emit (.generateDefaultConfig ".")).setWorld r.2)
    else if args.length = 0 then
      let r := env.LintRepository l "." s1.world
      (r.1, (s1.emit (.lintRepository ".")).setWorld r.2)
    else if args.length = 1 ∧ args[0]? = some "-" then
      let s2 := s1.emit .readStdin
      match env.ReadAllStdin s2.world with
      | (.error err, w2) =>
        ((.nil, some (errorfW "could not read stdin: " err)), s2.setWorld w2)
      | (.ok b, w2) =>
        let r := env.Lint l "<stdin>" b none w2
        (r.1, ((s2.setWorld w2).emit (.lint "<stdin>" b none)).setWorld r.2)
    else
      let r := env.LintFiles l args s1.world
      (r.1, (s1.emit (.lintFiles args)).setWorld r.2)

/-- Lines 101-108 of `main`: compile the `-ignore` pattern when it is not
empty. `.ok` carries the value assigned to `opts.IgnorePattern` (nil when the
pattern is empty); `.error` is the state in which `os.Exit(1)` is called, after
the message on stderr. -/
def compileIgnore (env : Env σ L D R P) (f : Flags) (s : St σ R P) :
    Except (St σ R P) (Option R × St σ R P) :=
  if f.ignorePat ≠ "" then
    let s1 := s.emit (.compile f.ignorePat)
    match env.Compile f.ignorePat with
    | .error err =>
      .error (s1.emit (.stderr
        ("invalid regular expression " ++ env.quote f.ignorePat ++ ": " ++ err.Error)))
    | .ok r => .ok (some r, s1)
  else
    .ok (none, s)

/-- The function `main` (lines 78-117). `parse` is what `flag.Parse()` at
line 94 does with the command line. When it ends the process, that is the
exit status of `main`. When it returns with flag values `f` and remaining
arguments `args`, lines 96-117 run: print the version, or resolve the ignore
pattern, call `run` and turn its result into the exit status. The result is
the exit status of the process (0 when `main` returns, 1 for `os.Exit(1)`,
the status chosen by `flag.Parse()` when it exits) and the final state. -/
def main (env : Env σ L D R P) (parse : ParseOutcome) (s : St σ R P) :
    Nat × St σ R P :=
  match parse with
  | .exited status output => (status, s.emit (.stderr output))
  | .parsed f args =>
    if f.ver then
      (0, s.emit (.stdout (env.version ++ "\n")))
    else
      match compileIgnore env f s with
      | .error s1 => (1, s1)
      | .ok (ip, s1) =>
        let opts := f.toOpts ip
        match run env args opts f.initConfig (s1.emit (.callRun args opts f.initConfig)) with
        | ((_, some err), s2) => (1, s2.emit (.stderr (err.Error ++ "\n")))
        | ((errs, none), s2) => if errs.len > 0 then (1, s2) else (0, s2)

end Driver

/-! ## A concrete environment

Used to evaluate the driver on concrete invocations. -/

/-- World of the concrete environment: what reading standard input yields, and
the number of external operations performed. -/
structure DemoWorld where
  stdin : Except GoError Bytes
  steps : Nat

/-- Concrete environment. Patterns are kept as their source text and the
pattern `(` is rejected; the linter is the options it was built from, and
building fails for the configuration file `missing.yaml`; linting standard
input yields one diagnostic unless the input is empty; linting files yields
one diagnostic per file named `bad.yaml`; linting the repository yields
nothing. -/
def demoEnv : Env DemoWorld (LinterOptions String) String String Unit where
  version := "DEV"
  quote := fun t => "\"" ++ t ++ "\""
  Compile := fun p =>
    if p = "(" then .error (.leaf "error parsing regexp: missing closing )") else .ok p
  NewLinter := fun o w =>
    if o.ConfigFile = "missing.yaml" then
      (.error (.leaf "could not read config file"), { w with steps := w.steps + 1 })
    else
      (.ok o, { w with steps := w.steps + 1 })
  GenerateDefaultConfig := fun _ _ w => (none, { w with steps := w.steps + 1 })
  LintRepository := fun _ _ w => ((.mk [], none), { w with steps := w.steps + 1 })
  ReadAllStdin := fun w => (w.stdin, { w with steps := w.steps + 1 })
  Lint := fun _ path b _ w =>
    ((if b = [] then .mk [] else .mk [path ++ ":1:1: unexpected input"], none),
      { w with steps := w.steps + 1 })
  LintFiles := fun _ paths w =>
    ((.mk ((paths.filter (fun p => p = "bad.yaml")).map (fun p => p ++ ":1:1: error")), none),
      { w with steps := w.steps + 1 })

/-- Initial state with standard input holding the two bytes of `on`. -/
def demoStart : St DemoWorld String Unit :=
  { world := { stdin := .ok [111, 110], steps := 0 }, log := [] }

/-- Initial state whose standard input cannot be read. -/
def demoBrokenStdin : St DemoWorld String Unit :=
  { world := { stdin := .error (.leaf "read /dev/stdin: input/output error"), steps := 0 },
    log := [] }

/-! ## Basic facts about the log -/

section Lemmas

variable {σ L D R P : Type}

theorem newEvents_append (s t : St σ R P) (evs : List (Event R P))
    (h : t.log = s.log ++ evs) : newEvents s t = evs := by
  simp [newEvents, h]

/-- Up to the construction of the linter, `run` does the same thing for all
arguments: when `NewLinter` fails, `run` returns nil diagnostics and that
error, having called nothing else. -/
theorem run_of_newLinter_error (env : Env σ L D R P) (args : List String)
    (opts : LinterOptions R) (initConfig : Bool) (s : St σ R P) (err : GoError) (w1 : σ)
    (hnew : env.NewLinter opts s.world = (.error err, w1)) :
    run env args opts initConfig s
      = ((.nil, some err), { world := w1, log := s.log ++ [.newLinter opts] }) := by
  simp [run, St.emit, St.setWorld, hnew]

theorem run_stdin_ok_eq (env : Env σ L D R P) (opts : LinterOptions R) (s : St σ R P)
    (l : L) (w1 : σ) (b : Bytes) (w2 : σ)
    (hnew : env.NewLinter opts s.world = (.ok l, w1))
    (hread : env.ReadAllStdin w1 = (.ok b, w2)) :
    run env ["-"] opts false s
      = ((env.Lint l "<stdin>" b none w2).1,
          { world := (env.Lint l "<stdin>" b none w2).2,
            log := s.log ++ [.newLinter opts, .readStdin, .lint "<stdin>" b none] }) := by
  simp [run, St.emit, St.setWorld, hnew, hread]

theorem run_stdin_error_eq (env : Env σ L D R P) (opts : LinterOptions R) (s : St σ R P)
    (l : L) (w1 : σ) (e : GoError) (w2 : σ)
    (hnew : env.NewLinter opts s.world = (.ok l, w1))
    (hread : env.ReadAllStdin w1 = (.error e, w2)) :
    run env ["-"] opts false s
      = ((.nil, some (errorfW "could not read stdin: " e)),
          { world := w2, log := s.log ++ [.newLinter opts, .readStdin] }) := by
  simp [run, St.emit, St.setWorld, hnew, hread]

theorem run_no_args_eq (env : Env σ L D R P) (opts : LinterOptions R) (s : St σ R P)
    (l : L) (w1 : σ) (hnew : env.NewLinter opts s.world = (.ok l, w1)) :
    run env [] opts false s
      = ((env.LintRepository l "." w1).1,
          { world := (env.LintRepository l "." w1).2,
            log := s.log ++ [.newLinter opts, .lintRepository "."] }) := by
  simp [run, St.emit, St.setWorld, hnew]

theorem run_init_config_eq (env : Env σ L D R P) (args : List String)
    (opts : LinterOptions R) (s : St σ R P)
    (l : L) (w1 : σ) (hnew : env.NewLinter opts s.world = (.ok l, w1)) :
    run env args opts true s
      = ((.nil, (env.GenerateDefaultConfig l "." w1).1),
          { world := (env.GenerateDefaultConfig l "." w1).2,
            log := s.log ++ [.newLinter opts, .generateDefaultConfig "."] }) := by
  simp [run, St.emit, St.setWorld, hnew]

/-- Every remaining shape of `args` (not empty, and not the single argument
`-`) reaches `LintFiles`. -/
theorem run_files_eq (env : Env σ L D R P) (args : List String) (opts : LinterOptions R)
    (s : St σ R P) (l : L) (w1 : σ)
    (hne : args ≠ []) (hdash : args ≠ ["-"])
    (hnew : env.NewLinter opts s.world = (.ok l, w1)) :
    run env args opts false s
      = ((env.LintFiles l args w1).1,
          { world := (env.LintFiles l args w1).2,
            log := s.log ++ [.newLinter opts, .lintFiles args] }) := by
  have h0 : args.length ≠ 0 := by
    intro h
    exact hne (List.length_eq_zero.mp h)
  have h1 : ¬ (args.length = 1 ∧ args[0]? = some "-") := by
    rintro ⟨hl, hh⟩
    obtain ⟨a, rfl⟩ := List.length_eq_one.mp hl
    simp at hh
    exact hdash (by rw [hh])
  simp [run, St.emit, St.setWorld, hnew, h0, h1]

/-- The log of `run`: the call of `NewLinter` with the options it was given,
followed only by document operations. -/
theorem run_log (env : Env σ L D R P) (args : List String) (opts : LinterOptions R)
    (initConfig : Bool) (s : St σ R P) :
    ∃ evs, (run env args opts initConfig s).2.log = s.log ++ (.newLinter opts :: evs) ∧
      ∀ e ∈ evs, e.isDocumentOp = true := by
  unfold run
  simp only [St.emit, St.setWorld]
  split
  · exact ⟨[], by simp, by simp⟩
  · split
    · exact ⟨[.generateDefaultConfig "."], by simp, by simp [Event.isDocumentOp]⟩
    · split
      · exact ⟨[.lintRepository "."], by simp, by simp [Event.isDocumentOp]⟩
      · split
        · split
          · exact ⟨[.readStdin], by simp, by simp [Event.isDocumentOp]⟩
          · rename_i b w2 _
            exact ⟨[.readStdin, .lint "<stdin>" b none], by simp,
              by simp [Event.isDocumentOp]⟩
        · exact ⟨[.lintFiles args], by simp, by simp [Event.isDocumentOp]⟩

theorem main_of_ver (env : Env σ L D R P) (f : Flags) (args : List String) (s : St σ R P)
    (hver : f.ver = true) :
    main env (.parsed f args) s = (0, s.emit (.stdout (env.version ++ "\n"))) := by
  simp [main, hver]

theorem compileIgnore_empty (env : Env σ L D R P) (f : Flags) (s : St σ R P)
    (hp : f.ignorePat = "") : compileIgnore env f s = .ok (none, s) := by
  simp [compileIgnore, hp]

theorem compileIgnore_ok (env : Env σ L D R P) (f : Flags) (s : St σ R P) (r : R)
    (hp : f.ignorePat ≠ "") (hc : env.Compile f.ignorePat = .ok r) :
    compileIgnore env f s = .ok (some r, s.emit (.compile f.ignorePat)) := by
  simp [compileIgnore, hp, hc]

theorem compileIgnore_error (env : Env σ L D R P) (f : Flags) (s : St σ R P) (e : GoError)
    (hp : f.ignorePat ≠ "") (hc : env.Compile f.ignorePat = .error e) :
    compileIgnore env f s = .error ((s.emit (.compile f.ignorePat)).emit (.stderr
      ("invalid regular expression " ++ env.quote f.ignorePat ++ ": " ++ e.Error))) := by
  simp [compileIgnore, hp, hc]

/-- The three outcomes of lines 101-108. -/
theorem compileIgnore_cases (env : Env σ L D R P) (f : Flags) (s : St σ R P) :
    (f.ignorePat = "" ∧ compileIgnore env f s = .ok (none, s)) ∨
    (f.ignorePat ≠ "" ∧ ∃ r, env.Compile f.ignorePat = .ok r ∧
      compileIgnore env f s = .ok (some r, s.emit (.compile f.ignorePat))) ∨
    (f.ignorePat ≠ "" ∧ ∃ e, env.Compile f.ignorePat = .error e ∧
      compileIgnore env f s = .error ((s.emit (.compile f.ignorePat)).emit (.stderr
        ("invalid regular expression " ++ env.quote f.ignorePat ++ ": " ++ e.Error)))) := by
  by_cases hp : f.ignorePat = ""
  · exact Or.inl ⟨hp, compileIgnore_empty env f s hp⟩
  · cases hc : env.Compile f.ignorePat with
    | error e => exact Or.inr (Or.inr ⟨hp, e, rfl, compileIgnore_error env f s e hp hc⟩)
    | ok r => exact Or.inr (Or.inl ⟨hp, r, rfl, compileIgnore_ok env f s r hp hc⟩)

theorem main_of_compile_error (env : Env σ L D R P) (f : Flags) (args : List String)
    (s s1 : St σ R P) (hver : f.ver = false) (hc : compileIgnore env f s = .error s1) :
    main env (.parsed f args) s = (1, s1) := by
  simp [main, hver, hc]

/-- Lines 110-117: the exit status and final state after the call of `run`. -/
theorem main_of_compile_ok (env : Env σ L D R P) (f : Flags) (args : List String)
    (s s1 : St σ R P) (ip : Option R) (hver : f.ver = false)
    (hc : compileIgnore env f s = .ok (ip, s1)) :
    main env (.parsed f args) s =
      match run env args (f.toOpts ip) f.initConfig
          (s1.emit (.callRun args (f.toOpts ip) f.initConfig)) with
      | ((_, some err), s2) => (1, s2.emit (.stderr (err.Error ++ "\n")))
      | ((errs, none), s2) => if errs.len > 0 then (1, s2) else (0, s2) := by
  simp [main, hver, hc]

/-- The exit status after the call of `run`, as a function of what `run`
returned. -/
theorem main_exit_of_compile_ok (env : Env σ L D R P) (f : Flags) (args : List String)
    (s s1 : St σ R P) (ip : Option R) (hver : f.ver = false)
    (hc : compileIgnore env f s = .ok (ip, s1)) :
    (main env (.parsed f args) s).1 =
      if (run env args (f.toOpts ip) f.initConfig
            (s1.emit (.callRun args (f.toOpts ip) f.initConfig))).1.2 ≠ none ∨
          0 < (run env args (f.toOpts ip) f.initConfig
            (s1.emit (.callRun args (f.toOpts ip) f.initConfig))).1.1.len
      then 1 else 0 := by
  rw [main_of_compile_ok env f args s s1 ip hver hc]
  generalize run env args (f.toOpts ip) f.initConfig
    (s1.emit (.callRun args (f.toOpts ip) f.initConfig)) = r
  obtain ⟨⟨errs, err⟩, s2⟩ := r
  cases err with
  | some e => simp
  | none =>
    by_cases h : 0 < errs.len
    · simp [h]
    · simp [h]

/-- The log of `main` once the options are resolved: the call of `run`, what
`run` logs, and at most a final message on stderr. -/
theorem main_log_of_compile_ok (env : Env σ L D R P) (f : Flags) (args : List String)
    (s s1 : St σ R P) (ip : Option R) (hver : f.ver = false)
    (hc : compileIgnore env f s = .ok (ip, s1)) :
    ∃ evs tail, (main env (.parsed f args) s).2.log
        = s1.log ++ (.callRun args (f.toOpts ip) f.initConfig
            :: .newLinter (f.toOpts ip) :: evs) ++ tail ∧
      (∀ e ∈ evs, e.isDocumentOp = true) ∧ (∀ e ∈ tail, ∃ txt, e = .stderr txt) := by
  rw [main_of_compile_ok env f args s s1 ip hver hc]
  obtain ⟨evs, hlog, hdoc⟩ := run_log env args (f.toOpts ip) f.initConfig
    (s1.emit (.callRun args (f.toOpts ip) f.initConfig))
  revert hlog
  generalize run env args (f.toOpts ip) f.initConfig
    (s1.emit (.callRun args (f.toOpts ip) f.initConfig)) = r
  obtain ⟨⟨errs, err⟩, s2⟩ := r
  intro hlog
  simp only [St.emit] at hlog
  cases err with
  | some e =>
    refine ⟨evs, [.stderr (e.Error ++ "\n")], ?_, hdoc, ?_⟩
    · simp [St.emit, hlog]
    · intro ev hev
      exact ⟨_, List.mem_singleton.mp hev⟩
  | none =>
    refine ⟨evs, [], ?_, hdoc, by simp⟩
    by_cases h : 0 < errs.len
    · simp [h, hlog]
    · simp [h, hlog]

/-- The state `main` ends in when `NewLinter` fails: exit status 1 after the
error message, with nothing called after `NewLinter`. -/
theorem main_of_newLinter_error (env : Env σ L D R P) (f : Flags) (args : List String)
    (s s1 : St σ R P) (ip : Option R) (e : GoError) (w1 : σ) (hver : f.ver = false)
    (hc : compileIgnore env f s = .ok (ip, s1))
    (hnew : env.NewLinter (f.toOpts ip) s1.world = (.error e, w1)) :
    main env (.parsed f args) s = (1, { world := w1, log := s1.log ++
      [.callRun args (f.toOpts ip) f.initConfig, .newLinter (f.toOpts ip),
        .stderr (e.Error ++ "\n")] }) := by
  have hrun := run_of_newLinter_error env args (f.toOpts ip) f.initConfig
    (s1.emit (.callRun args (f.toOpts ip) f.initConfig)) e w1 hnew
  rw [main_of_compile_ok env f args s s1 ip hver hc, hrun]
  simp [St.emit]

/-- Lines 101-108 add to the log at most the call of `regexp.Compile`. -/
theorem compileIgnore_ok_log (env : Env σ L D R P) (f : Flags) (s s1 : St σ R P)
    (ip : Option R) (hc : compileIgnore env f s = .ok (ip, s1)) :
    s1.world = s.world ∧
    ((f.ignorePat = "" ∧ ip = none ∧ s1.log = s.log) ∨
     (f.ignorePat ≠ "" ∧ (∃ r, env.Compile f.ignorePat = .ok r ∧ ip = some r) ∧
        s1.log = s.log ++ [.compile f.ignorePat])) := by
  rcases compileIgnore_cases env f s with ⟨hp, h⟩ | ⟨hp, r, hr, h⟩ | ⟨hp, e, he, h⟩
  · rw [h] at hc
    cases hc
    exact ⟨rfl, Or.inl ⟨hp, rfl, rfl⟩⟩
  · rw [h] at hc
    cases hc
    exact ⟨rfl, Or.inr ⟨hp, ⟨r, hr, rfl⟩, rfl⟩⟩
  · rw [h] at hc
    cases hc

end Lemmas

/-! ## Dispatch of `run` -/

section RunClaims

variable {σ L D R P : Type}

/-- C1: when the linter is built, `initConfig` is false, the arguments are
exactly `["-"]` and reading standard input yields the bytes `b`, `run` returns
the result pair of `Lint("<stdin>", b, nil)`: the world it leaves is the one
`Lint` leaves, the calls it makes are `NewLinter`, the read of standard input
and that `Lint`, and neither `LintRepository` nor `LintFiles` is called. -/
theorem run_dash_lints_stdin (env : Env σ L D R P) (opts : LinterOptions R)
    (s : St σ R P) (l : L) (w1 : σ) (b : Bytes) (w2 : σ)
    (hnew : env.NewLinter opts s.world = (.ok l, w1))
    (hread : env.ReadAllStdin w1 = (.ok b, w2)) :
    (run env ["-"] opts false s).1 = (env.Lint l "<stdin>" b none w2).1 ∧
    (run env ["-"] opts false s).2.world = (env.Lint l "<stdin>" b none w2).2 ∧
    newEvents s (run env ["-"] opts false s).2
      = [.newLinter opts, .readStdin, .lint "<stdin>" b none] ∧
    (∀ d, Event.lintRepository d ∉ newEvents s (run env ["-"] opts false s).2) ∧
    (∀ ps, Event.lintFiles ps ∉ newEvents s (run env ["-"] opts false s).2) := by
  have h := run_stdin_ok_eq env opts s l w1 b w2 hnew hread
  have hev : newEvents s (run env ["-"] opts false s).2
      = [.newLinter opts, .readStdin, .lint "<stdin>" b none] :=
    newEvents_append _ _ _ (by rw [h])
  refine ⟨by rw [h], by rw [h], hev, ?_, ?_⟩
  · intro d
    rw [hev]
    simp
  · intro ps
    rw [hev]
    simp

/-- Instance of C1: default options, standard input holding `on`. -/
theorem run_dash_lints_stdin_witness :
    (run demoEnv ["-"] (flagDefaults.toOpts none) false demoStart).1
      = (demoEnv.Lint (flagDefaults.toOpts none) "<stdin>" [111, 110] none
          { stdin := .ok [111, 110], steps := 2 }).1 ∧
    (run demoEnv ["-"] (flagDefaults.toOpts none) false demoStart).1
      = (.mk ["<stdin>:1:1: unexpected input"], none) ∧
    newEvents demoStart (run demoEnv ["-"] (flagDefaults.toOpts none) false demoStart).2
      = [.newLinter (flagDefaults.toOpts none), .readStdin, .lint "<stdin>" [111, 110] none] :=
  have h := run_dash_lints_stdin demoEnv (flagDefaults.toOpts none) demoStart
    (flagDefaults.toOpts none) { stdin := .ok [111, 110], steps := 1 } [111, 110]
    { stdin := .ok [111, 110], steps := 2 } rfl rfl
  ⟨h.1, h.1.trans rfl, h.2.2.1⟩

/-- C2: when the linter is built, `initConfig` is false and there are no
arguments, `run` returns the result pair of `LintRepository(".")`; the calls
it makes are `NewLinter` and that `LintRepository`: standard input is not
read and neither `Lint` nor `LintFiles` is called. -/
theorem run_no_args_lints_repository (env : Env σ L D R P) (opts : LinterOptions R)
    (s : St σ R P) (l : L) (w1 : σ)
    (hnew : env.NewLinter opts s.world = (.ok l, w1)) :
    (run env [] opts false s).1 = (env.LintRepository l "." w1).1 ∧
    (run env [] opts false s).2.world = (env.LintRepository l "." w1).2 ∧
    newEvents s (run env [] opts false s).2 = [.newLinter opts, .lintRepository "."] ∧
    Event.readStdin ∉ newEvents s (run env [] opts false s).2 ∧
    (∀ path b pr, Event.lint path b pr ∉ newEvents s (run env [] opts false s).2) ∧
    (∀ ps, Event.lintFiles ps ∉ newEvents s (run env [] opts false s).2) := by
  have h := run_no_args_eq env opts s l w1 hnew
  have hev : newEvents s (run env [] opts false s).2
      = [.newLinter opts, .lintRepository "."] :=
    newEvents_append _ _ _ (by rw [h])
  refine ⟨by rw [h], by rw [h], hev, ?_, ?_, ?_⟩
  · rw [hev]
    simp
  · intro path b pr
    rw [hev]
    simp
  · intro ps
    rw [hev]
    simp

/-- Instance of C2: default options, no arguments. -/
theorem run_no_args_lints_repository_witness :
    (run demoEnv [] (flagDefaults.toOpts none) false demoStart).1
      = (demoEnv.LintRepository (flagDefaults.toOpts none) "."
          { stdin := .ok [111, 110], steps := 1 }).1 ∧
    newEvents demoStart (run demoEnv [] (flagDefaults.toOpts none) false demoStart).2
      = [.newLinter (flagDefaults.toOpts none), .lintRepository "."] :=
  have h := run_no_args_lints_repository demoEnv (flagDefaults.toOpts none) demoStart
    (flagDefaults.toOpts none) { stdin := .ok [111, 110], steps := 1 } rfl
  ⟨h.1, h.2.2.1⟩

/-- C3: when the linter is built, `initConfig` is false and the arguments
are a non-empty list without the argument `-`, `run` returns the result pair
of `LintFiles(args)` for the same list; the calls it makes are `NewLinter` and
that `LintFiles`: standard input is not read and neither `LintRepository` nor
`Lint` is called. -/
theorem run_files_lints_files (env : Env σ L D R P) (args : List String)
    (opts : LinterOptions R) (s : St σ R P) (l : L) (w1 : σ)
    (hne : args ≠ []) (hdash : "-" ∉ args)
    (hnew : env.NewLinter opts s.world = (.ok l, w1)) :
    (run env args opts false s).1 = (env.LintFiles l args w1).1 ∧
    (run env args opts false s).2.world = (env.LintFiles l args w1).2 ∧
    newEvents s (run env args opts false s).2 = [.newLinter opts, .lintFiles args] ∧
    Event.readStdin ∉ newEvents s (run env args opts false s).2 ∧
    (∀ d, Event.lintRepository d ∉ newEvents s (run env args opts false s).2) ∧
    (∀ path b pr, Event.lint path b pr ∉ newEvents s (run env args opts false s).2) := by
  have hd : args ≠ ["-"] := by
    intro h
    exact hdash (by rw [h]; simp)
  have h := run_files_eq env args opts s l w1 hne hd hnew
  have hev : newEvents s (run env args opts false s).2
      = [.newLinter opts, .lintFiles args] :=
    newEvents_append _ _ _ (by rw [h])
  refine ⟨by rw [h], by rw [h], hev, ?_, ?_, ?_⟩
  · rw [hev]
    simp
  · intro d
    rw [hev]
    simp
  · intro path b pr
    rw [hev]
    simp

/-- Instance of C3: default options, two file arguments. -/
theorem run_files_lints_files_witness :
    ["a.yaml", "bad.yaml"] ≠ [] ∧ "-" ∉ ["a.yaml", "bad.yaml"] ∧
    (run demoEnv ["a.yaml", "bad.yaml"] (flagDefaults.toOpts none) false demoStart).1
      = (.mk ["bad.yaml:1:1: error"], none) ∧
    newEvents demoStart
        (run demoEnv ["a.yaml", "bad.yaml"] (flagDefaults.toOpts none) false demoStart).2
      = [.newLinter (flagDefaults.toOpts none), .lintFiles ["a.yaml", "bad.yaml"]] :=
  have hne : ["a.yaml", "bad.yaml"] ≠ [] := by decide
  have hdash : "-" ∉ ["a.yaml", "bad.yaml"] := by decide
  have h := run_files_lints_files demoEnv ["a.yaml", "bad.yaml"] (flagDefaults.toOpts none)
    demoStart (flagDefaults.toOpts none) { stdin := .ok [111, 110], steps := 1 }
    hne hdash rfl
  ⟨hne, hdash, h.1.trans rfl, h.2.2.1⟩

end RunClaims

/-! ## Exit status of `main` -/

section MainClaims

variable {σ L D R P : Type}

/-- Exit status of `main` once `flag.Parse()` has returned: it is 1 exactly
when `-version` is not set and the non-empty `-ignore` pattern does not
compile, or the call of `run` that `main` makes returns a non-nil error, or
that call returns a non-empty diagnostic list; it is otherwise 0, in
particular with `-version`. -/
theorem main_parsed_exit_status (env : Env σ L D R P) (f : Flags) (args : List String)
    (s : St σ R P) :
    ((main env (.parsed f args) s).1 = 1 ↔
      (f.ver = false ∧ f.ignorePat ≠ "" ∧ ∃ e, env.Compile f.ignorePat = .error e) ∨
      (∃ ip s1, f.ver = false ∧ compileIgnore env f s = .ok (ip, s1) ∧
        (run env args (f.toOpts ip) f.initConfig
          (s1.emit (.callRun args (f.toOpts ip) f.initConfig))).1.2 ≠ none) ∨
      (∃ ip s1, f.ver = false ∧ compileIgnore env f s = .ok (ip, s1) ∧
        0 < (run env args (f.toOpts ip) f.initConfig
          (s1.emit (.callRun args (f.toOpts ip) f.initConfig))).1.1.len)) ∧
    ((main env (.parsed f args) s).1 = 1 ∨ (main env (.parsed f args) s).1 = 0) ∧
    (f.ver = true → (main env (.parsed f args) s).1 = 0) := by
  cases hver : f.ver with
  | true =>
    have h0 : (main env (.parsed f args) s).1 = 0 := by rw [main_of_ver env f args s hver]
    refine ⟨?_, Or.inr h0, fun _ => h0⟩
    rw [h0]
    simp
  | false =>
    refine ⟨?_, ?_, fun h => by cases h⟩
    · rcases compileIgnore_cases env f s with ⟨hp, hc⟩ | ⟨hp, r, hr, hc⟩ | ⟨hp, e, he, hc⟩
      · rw [main_exit_of_compile_ok env f args s s none hver hc]
        constructor
        · intro h
          by_cases h1 : (run env args (f.toOpts none) f.initConfig
              (s.emit (.callRun args (f.toOpts none) f.initConfig))).1.2 ≠ none
          · exact Or.inr (Or.inl ⟨none, s, rfl, hc, h1⟩)
          · by_cases h2 : 0 < (run env args (f.toOpts none) f.initConfig
                (s.emit (.callRun args (f.toOpts none) f.initConfig))).1.1.len
            · exact Or.inr (Or.inr ⟨none, s, rfl, hc, h2⟩)
            · simp [h1, h2] at h
        · rintro (⟨_, hne, _⟩ | ⟨ip, s1, _, hc1, h1⟩ | ⟨ip, s1, _, hc1, h2⟩)
          · exact absurd hp hne
          · rw [hc] at hc1
            cases hc1
            simp [h1]
          · rw [hc] at hc1
            cases hc1
            simp [h2]
      · rw [main_exit_of_compile_ok env f args s _ (some r) hver hc]
        constructor
        · intro h
          by_cases h1 : (run env args (f.toOpts (some r)) f.initConfig
              ((s.emit (.compile f.ignorePat)).emit
                (.callRun args (f.toOpts (some r)) f.initConfig))).1.2 ≠ none
          · exact Or.inr (Or.inl ⟨some r, _, rfl, hc, h1⟩)
          · by_cases h2 : 0 < (run env args (f.toOpts (some r)) f.initConfig
                ((s.emit (.compile f.ignorePat)).emit
                  (.callRun args (f.toOpts (some r)) f.initConfig))).1.1.len
            · exact Or.inr (Or.inr ⟨some r, _, rfl, hc, h2⟩)
            · simp [h1, h2] at h
        · rintro (⟨_, _, e, he⟩ | ⟨ip, s1, _, hc1, h1⟩ | ⟨ip, s1, _, hc1, h2⟩)
          · rw [hr] at he
            cases he
          · rw [hc] at hc1
            cases hc1
            simp [h1]
          · rw [hc] at hc1
            cases hc1
            simp [h2]
      · rw [main_of_compile_error env f args s _ hver hc]
        exact ⟨fun _ => Or.inl ⟨rfl, hp, e, he⟩, fun _ => rfl⟩
    · rcases compileIgnore_cases env f s with ⟨_, hc⟩ | ⟨_, r, _, hc⟩ | ⟨_, e, _, hc⟩
      · rw [main_exit_of_compile_ok env f args s s none hver hc]
        split
        · exact Or.inl rfl
        · exact Or.inr rfl
      · rw [main_exit_of_compile_ok env f args s _ (some r) hver hc]
        split
        · exact Or.inl rfl
        · exact Or.inr rfl
      · rw [main_of_compile_error env f args s _ hver hc]
        exact Or.inl rfl

/-- C4 as stated fails: for the command line `actionlint -bogus`,
`flag.Parse()` rejects the undefined flag and ends the process with status 2.
No pattern is compiled and `run` is not called, so none of the three
conditions holds, yet `main` neither ends with status 1 nor returns with
status 0. -/
theorem main_exit_status_counterexample :
    (main demoEnv (.exited 2 "flag provided but not defined: -bogus\n") demoStart).1 = 2 ∧
    (main demoEnv (.exited 2 "flag provided but not defined: -bogus\n") demoStart).1 ≠ 1 ∧
    (main demoEnv (.exited 2 "flag provided but not defined: -bogus\n") demoStart).1 ≠ 0 ∧
    newEvents demoStart
        (main demoEnv (.exited 2 "flag provided but not defined: -bogus\n") demoStart).2
      = [.stderr "flag provided but not defined: -bogus\n"] :=
  ⟨rfl, by decide, by decide, rfl⟩

/-- C4, amended: whenever `flag.Parse()` returns (with flag values `f` and
remaining arguments `args`), `main` ends with exit status 1 exactly when
`-version` is not set and the non-empty `-ignore` pattern does not compile, or
the call of `run` that `main` makes returns a non-nil error, or that call
returns a non-empty diagnostic list; in every other such case `main` returns
with exit status 0, in particular with `-version`. When `flag.Parse()` ends
the process itself, the exit status is the one it chose and `main` does
nothing more. -/
theorem main_exit_status_one_iff (env : Env σ L D R P) (f : Flags) (args : List String)
    (s : St σ R P) :
    ((main env (.parsed f args) s).1 = 1 ↔
      (f.ver = false ∧ f.ignorePat ≠ "" ∧ ∃ e, env.Compile f.ignorePat = .error e) ∨
      (∃ ip s1, f.ver = false ∧ compileIgnore env f s = .ok (ip, s1) ∧
        (run env args (f.toOpts ip) f.initConfig
          (s1.emit (.callRun args (f.toOpts ip) f.initConfig))).1.2 ≠ none) ∨
      (∃ ip s1, f.ver = false ∧ compileIgnore env f s = .ok (ip, s1) ∧
        0 < (run env args (f.toOpts ip) f.initConfig
          (s1.emit (.callRun args (f.toOpts ip) f.initConfig))).1.1.len)) ∧
    ((main env (.parsed f args) s).1 = 1 ∨ (main env (.parsed f args) s).1 = 0) ∧
    (f.ver = true → (main env (.parsed f args) s).1 = 0) ∧
    (∀ status output,
      main env (.exited status output) s = (status, s.emit (.stderr output))) := by
  obtain ⟨h1, h2, h3⟩ := main_parsed_exit_status env f args s
  exact ⟨h1, h2, h3, fun _ _ => rfl⟩

/-- Instances of amended C4: with default flags the file `bad.yaml` has a
diagnostic and `main` ends with status 1; the file `a.yaml` has none and `main`
returns with status 0; with `-version` it returns with status 0. -/
theorem main_exit_status_one_iff_witness :
    (main demoEnv (.parsed flagDefaults ["bad.yaml"]) demoStart).1 = 1 ∧
    (main demoEnv (.parsed flagDefaults ["a.yaml"]) demoStart).1 = 0 ∧
    (main demoEnv (.parsed { flagDefaults with ver := true, ignorePat := "(" } ["a.yaml"])
      demoStart).1 = 0 :=
  ⟨(main_exit_status_one_iff demoEnv flagDefaults ["bad.yaml"] demoStart).1.mpr
      (Or.inr (Or.inr ⟨none, demoStart, rfl, rfl, by decide⟩)),
    ((main_exit_status_one_iff demoEnv flagDefaults ["a.yaml"] demoStart).2.1).resolve_left
      (by decide),
    (main_exit_status_one_iff demoEnv { flagDefaults with ver := true, ignorePat := "(" }
      ["a.yaml"] demoStart).2.2.1 rfl⟩

/-- C5: configuration errors stop the driver before any document is
analysed. (1) When the non-empty `-ignore` pattern does not compile, `main`
calls neither `run` nor `NewLinter`, none of `GenerateDefaultConfig`,
`LintRepository`, `Lint`, `LintFiles`, and does not read standard input; unless
`-version` is set it exits with status 1 after one message on stderr.
(2) When `NewLinter` returns an error for the options `main` passes, `run`
returns nil diagnostics and that same error, `main` calls none of the document
operations and exits with status 1. (3) For any call of `run`, a `NewLinter`
error is returned unchanged with nil diagnostics and `NewLinter` is the only
call made. -/
theorem config_error_stops_before_analysis (env : Env σ L D R P) (f : Flags)
    (args : List String) (s : St σ R P) :
    ((f.ignorePat ≠ "" ∧ ∃ e, env.Compile f.ignorePat = .error e) →
      (∀ ev ∈ newEvents s (main env (.parsed f args) s).2,
        ev.isDocumentOp = false ∧ ev.isRunOrNewLinter = false) ∧
      (f.ver = false → (main env (.parsed f args) s).1 = 1 ∧
        ∃ msg, newEvents s (main env (.parsed f args) s).2 = [.compile f.ignorePat, .stderr msg])) ∧
    (∀ ip s1 e w1, f.ver = false → compileIgnore env f s = .ok (ip, s1) →
      env.NewLinter (f.toOpts ip) s1.world = (.error e, w1) →
      (run env args (f.toOpts ip) f.initConfig
        (s1.emit (.callRun args (f.toOpts ip) f.initConfig))).1 = (.nil, some e) ∧
      (∀ ev ∈ newEvents s (main env (.parsed f args) s).2, ev.isDocumentOp = false) ∧
      (main env (.parsed f args) s).1 = 1) ∧
    (∀ opts initConfig (t : St σ R P) e w1,
      env.NewLinter opts t.world = (.error e, w1) →
      (run env args opts initConfig t).1 = (.nil, some e) ∧
      newEvents t (run env args opts initConfig t).2 = [.newLinter opts]) := by
  refine ⟨?_, ?_, ?_⟩
  · rintro ⟨hp, e, he⟩
    cases hver : f.ver with
    | true =>
      refine ⟨?_, fun h => by cases h⟩
      have hev : newEvents s (main env (.parsed f args) s).2 = [.stdout (env.version ++ "\n")] :=
        newEvents_append _ _ _ (by rw [main_of_ver env f args s hver]; rfl)
      intro ev hmem
      rw [hev] at hmem
      rw [List.mem_singleton.mp hmem]
      exact ⟨rfl, rfl⟩
    | false =>
      have hm := main_of_compile_error env f args s _ hver
        (compileIgnore_error env f s e hp he)
      have hev : newEvents s (main env (.parsed f args) s).2 = [.compile f.ignorePat, .stderr
          ("invalid regular expression " ++ env.quote f.ignorePat ++ ": " ++ e.Error)] :=
        newEvents_append _ _ _ (by rw [hm]; simp [St.emit])
      refine ⟨?_, fun _ => ⟨by rw [hm], _, hev⟩⟩
      intro ev hmem
      rw [hev] at hmem
      simp only [List.mem_cons, List.mem_singleton, List.mem_nil_iff, or_false] at hmem
      rcases hmem with h | h
      · rw [h]
        exact ⟨rfl, rfl⟩
      · rw [h]
        exact ⟨rfl, rfl⟩
  · intro ip s1 e w1 hver hc hnew
    have hrun := run_of_newLinter_error env args (f.toOpts ip) f.initConfig
      (s1.emit (.callRun args (f.toOpts ip) f.initConfig)) e w1 hnew
    have hm := main_of_newLinter_error env f args s s1 ip e w1 hver hc hnew
    refine ⟨by rw [hrun], ?_, by rw [hm]⟩
    obtain ⟨_, hlog⟩ := compileIgnore_ok_log env f s s1 ip hc
    rcases hlog with ⟨_, _, hl⟩ | ⟨_, _, hl⟩
    · have hev : newEvents s (main env (.parsed f args) s).2
          = [.callRun args (f.toOpts ip) f.initConfig, .newLinter (f.toOpts ip),
              .stderr (e.Error ++ "\n")] :=
        newEvents_append _ _ _ (by rw [hm, hl])
      intro ev hmem
      rw [hev] at hmem
      simp only [List.mem_cons, List.mem_singleton, List.mem_nil_iff, or_false] at hmem
      rcases hmem with h | h | h <;> rw [h] <;> rfl
    · have hev : newEvents s (main env (.parsed f args) s).2
          = [.compile f.ignorePat, .callRun args (f.toOpts ip) f.initConfig,
              .newLinter (f.toOpts ip), .stderr (e.Error ++ "\n")] :=
        newEvents_append _ _ _ (by rw [hm, hl]; simp)
      intro ev hmem
      rw [hev] at hmem
      simp only [List.mem_cons, List.mem_singleton, List.mem_nil_iff, or_false] at hmem
      rcases hmem with h | h | h | h <;> rw [h] <;> rfl
  · intro opts initConfig t e w1 hnew
    have hrun := run_of_newLinter_error env args opts initConfig t e w1 hnew
    exact ⟨by rw [hrun], newEvents_append _ _ _ (by rw [hrun])⟩

/-- Instances of C5: the pattern `(` does not compile; the configuration file
`missing.yaml` makes `NewLinter` fail. -/
theorem config_error_stops_before_analysis_witness :
    ((main demoEnv (.parsed { flagDefaults with ignorePat := "(" } ["a.yaml"]) demoStart).1 = 1 ∧
      ∃ msg, newEvents demoStart
          (main demoEnv (.parsed { flagDefaults with ignorePat := "(" } ["a.yaml"]) demoStart).2
        = [.compile "(", .stderr msg]) ∧
    ((run demoEnv ["a.yaml"] ({ flagDefaults with configFile := "missing.yaml" }.toOpts none)
        false (demoStart.emit (.callRun ["a.yaml"]
          ({ flagDefaults with configFile := "missing.yaml" }.toOpts none) false))).1
        = (.nil, some (.leaf "could not read config file")) ∧
      (main demoEnv (.parsed { flagDefaults with configFile := "missing.yaml" } ["a.yaml"])
        demoStart).1 = 1) :=
  have h1 := (config_error_stops_before_analysis demoEnv
    { flagDefaults with ignorePat := "(" } ["a.yaml"] demoStart).1
    ⟨by decide, _, rfl⟩
  have h2 := (config_error_stops_before_analysis demoEnv
    { flagDefaults with configFile := "missing.yaml" } ["a.yaml"] demoStart).2.1
    none demoStart (.leaf "could not read config file")
    { stdin := .ok [111, 110], steps := 1 } rfl rfl rfl
  ⟨h1.2 rfl, h2.1, h2.2.2⟩

/-- C6 as stated fails: with default flags and the file argument `bad.yaml`
the flags are valid, the linter is built and `LintFiles` returns one diagnostic
and no error, yet `main` exits with status 1, not 0. -/
theorem diagnostics_exit_zero_counterexample :
    flagDefaults.ver = false ∧
    (∃ s1, compileIgnore demoEnv flagDefaults demoStart = .ok (none, s1) ∧
      (demoEnv.NewLinter (flagDefaults.toOpts none) s1.world).1
        = .ok (flagDefaults.toOpts none)) ∧
    (run demoEnv ["bad.yaml"] (flagDefaults.toOpts none) flagDefaults.initConfig
      (demoStart.emit (.callRun ["bad.yaml"] (flagDefaults.toOpts none)
        flagDefaults.initConfig))).1 = (.mk ["bad.yaml:1:1: error"], none) ∧
    (main demoEnv (.parsed flagDefaults ["bad.yaml"]) demoStart).1 = 1 ∧
    (main demoEnv (.parsed flagDefaults ["bad.yaml"]) demoStart).1 ≠ 0 :=
  ⟨rfl, ⟨demoStart, rfl, rfl⟩, rfl, rfl, by decide⟩

/-- C6, amended: when the flags are valid and the call of `run` made by `main`
returns no error (so the linter was built and the selected operation returned
no error), `main` ends with exit status 0 exactly when `run` returned no
diagnostics, and with exit status 1 exactly when it returned at least one. -/
theorem main_exit_zero_iff_no_diagnostics (env : Env σ L D R P) (f : Flags)
    (args : List String) (s s1 : St σ R P) (ip : Option R)
    (hver : f.ver = false) (hc : compileIgnore env f s = .ok (ip, s1))
    (hok : (run env args (f.toOpts ip) f.initConfig
      (s1.emit (.callRun args (f.toOpts ip) f.initConfig))).1.2 = none) :
    (∃ l w1, env.NewLinter (f.toOpts ip) s1.world = (.ok l, w1)) ∧
    ((main env (.parsed f args) s).1 = 0 ↔
      (run env args (f.toOpts ip) f.initConfig
        (s1.emit (.callRun args (f.toOpts ip) f.initConfig))).1.1.len = 0) ∧
    ((main env (.parsed f args) s).1 = 1 ↔
      0 < (run env args (f.toOpts ip) f.initConfig
        (s1.emit (.callRun args (f.toOpts ip) f.initConfig))).1.1.len) := by
  refine ⟨?_, ?_, ?_⟩
  · cases hnew : env.NewLinter (f.toOpts ip) s1.world with
    | mk res w1 =>
      cases res with
      | ok l => exact ⟨l, w1, rfl⟩
      | error e =>
        have hrun := run_of_newLinter_error env args (f.toOpts ip) f.initConfig
          (s1.emit (.callRun args (f.toOpts ip) f.initConfig)) e w1 hnew
        rw [hrun] at hok
        cases hok
  · rw [main_exit_of_compile_ok env f args s s1 ip hver hc, hok]
    by_cases h : 0 < (run env args (f.toOpts ip) f.initConfig
        (s1.emit (.callRun args (f.toOpts ip) f.initConfig))).1.1.len
    · simp [h]
      omega
    · simp [h]
      omega
  · rw [main_exit_of_compile_ok env f args s s1 ip hver hc, hok]
    by_cases h : 0 < (run env args (f.toOpts ip) f.initConfig
        (s1.emit (.callRun args (f.toOpts ip) f.initConfig))).1.1.len
    · simp [h]
    · simp [h]

/-- Instance of amended C6: the file `a.yaml` has no diagnostics and `main`
exits with status 0. -/
theorem main_exit_zero_iff_no_diagnostics_witness :
    flagDefaults.ver = false ∧
    (run demoEnv ["a.yaml"] (flagDefaults.toOpts none) flagDefaults.initConfig
      (demoStart.emit (.callRun ["a.yaml"] (flagDefaults.toOpts none)
        flagDefaults.initConfig))).1 = (.mk [], none) ∧
    (main demoEnv (.parsed flagDefaults ["a.yaml"]) demoStart).1 = 0 :=
  ⟨rfl, rfl,
    (main_exit_zero_iff_no_diagnostics demoEnv flagDefaults ["a.yaml"] demoStart demoStart
      none rfl rfl rfl).2.1.mpr rfl⟩

/-- C7: without `-version`, (1) for a non-empty `-ignore` pattern `p` that
compiles to `r`, `main` compiles exactly `p`, and the options it passes to
`run` (and `run` passes to `NewLinter`) have `IgnorePattern` equal to `r` and
every other field equal to its flag value; (2) for an empty pattern nothing is
compiled and the options have `IgnorePattern` nil and every other field equal
to its flag value. An absent `-ignore` is the empty pattern and an absent
`-shellcheck` is `shellcheck`. -/
theorem main_passes_resolved_options (env : Env σ L D R P) (f : Flags)
    (args : List String) (s : St σ R P) (hver : f.ver = false) :
    (∀ r, f.ignorePat ≠ "" → env.Compile f.ignorePat = .ok r →
      (newEvents s (main env (.parsed f args) s).2).take 3
        = [.compile f.ignorePat,
            .callRun args
              { Shellcheck := f.shellcheck, Oneline := f.oneline,
                ConfigFile := f.configFile, NoColor := f.noColor, Verbose := f.verbose,
                Debug := f.debug, IgnorePattern := some r } f.initConfig,
            .newLinter
              { Shellcheck := f.shellcheck, Oneline := f.oneline,
                ConfigFile := f.configFile, NoColor := f.noColor, Verbose := f.verbose,
                Debug := f.debug, IgnorePattern := some r }] ∧
      (∀ q, Event.compile q ∉ (newEvents s (main env (.parsed f args) s).2).drop 1)) ∧
    (f.ignorePat = "" →
      (newEvents s (main env (.parsed f args) s).2).take 2
        = [.callRun args
              { Shellcheck := f.shellcheck, Oneline := f.oneline,
                ConfigFile := f.configFile, NoColor := f.noColor, Verbose := f.verbose,
                Debug := f.debug, IgnorePattern := none } f.initConfig,
            .newLinter
              { Shellcheck := f.shellcheck, Oneline := f.oneline,
                ConfigFile := f.configFile, NoColor := f.noColor, Verbose := f.verbose,
                Debug := f.debug, IgnorePattern := none }] ∧
      (∀ q, Event.compile q ∉ newEvents s (main env (.parsed f args) s).2)) ∧
    flagDefaults.ignorePat = "" ∧ flagDefaults.shellcheck = "shellcheck" := by
  refine ⟨?_, ?_, rfl, rfl⟩
  · intro r hp hr
    have hc := compileIgnore_ok env f s r hp hr
    obtain ⟨evs, tail, hlog, hdoc, htail⟩ :=
      main_log_of_compile_ok env f args s _ (some r) hver hc
    have hev : newEvents s (main env (.parsed f args) s).2
        = .compile f.ignorePat :: .callRun args (f.toOpts (some r)) f.initConfig
            :: .newLinter (f.toOpts (some r)) :: (evs ++ tail) :=
      newEvents_append _ _ _ (by rw [hlog]; simp [St.emit])
    rw [hev]
    refine ⟨rfl, ?_⟩
    intro q hq
    simp only [List.drop_succ_cons, List.drop_zero, List.mem_cons, List.mem_append,
      reduceCtorEq, false_or] at hq
    rcases hq with h | h
    · have := hdoc _ h
      simp [Event.isDocumentOp] at this
    · obtain ⟨txt, h2⟩ := htail _ h
      cases h2
  · intro hp
    have hc := compileIgnore_empty env f s hp
    obtain ⟨evs, tail, hlog, hdoc, htail⟩ :=
      main_log_of_compile_ok env f args s s none hver hc
    have hev : newEvents s (main env (.parsed f args) s).2
        = .callRun args (f.toOpts none) f.initConfig
            :: .newLinter (f.toOpts none) :: (evs ++ tail) :=
      newEvents_append _ _ _ (by rw [hlog]; simp)
    rw [hev]
    refine ⟨rfl, ?_⟩
    intro q hq
    simp only [List.mem_cons, List.mem_append, reduceCtorEq, false_or] at hq
    rcases hq with h | h
    · have := hdoc _ h
      simp [Event.isDocumentOp] at this
    · obtain ⟨txt, h2⟩ := htail _ h
      cases h2

/-- Instance of C7: the pattern `x+` with otherwise default flags, and the
default flags alone. -/
theorem main_passes_resolved_options_witness :
    (newEvents demoStart
        (main demoEnv (.parsed { flagDefaults with ignorePat := "x+" } ["a.yaml"]) demoStart).2).take 3
      = [.compile "x+",
          .callRun ["a.yaml"]
            { Shellcheck := "shellcheck", Oneline := false, ConfigFile := "",
              NoColor := false, Verbose := false, Debug := false,
              IgnorePattern := some "x+" } false,
          .newLinter
            { Shellcheck := "shellcheck", Oneline := false, ConfigFile := "",
              NoColor := false, Verbose := false, Debug := false,
              IgnorePattern := some "x+" }] ∧
    (∀ q, Event.compile q ∉ newEvents demoStart
        (main demoEnv (.parsed flagDefaults ["a.yaml"]) demoStart).2) :=
  ⟨((main_passes_resolved_options demoEnv { flagDefaults with ignorePat := "x+" }
      ["a.yaml"] demoStart rfl).1 "x+" (by decide) rfl).1,
    ((main_passes_resolved_options demoEnv flagDefaults ["a.yaml"] demoStart rfl).2.1 rfl).2⟩

/-- C8: when the linter is built, `initConfig` is false, the arguments are
exactly `["-"]` and reading standard input fails with error `e`, `run` returns
nil diagnostics and an error that wraps `e` with message
`could not read stdin: ` followed by the message of `e`; the calls made are
`NewLinter` and the read, so `Lint` is not called; and a `main` that made this
call of `run` writes that message to stderr and exits with status 1. -/
theorem run_stdin_read_failure (env : Env σ L D R P) (opts : LinterOptions R)
    (s : St σ R P) (l : L) (w1 : σ) (e : GoError) (w2 : σ)
    (hnew : env.NewLinter opts s.world = (.ok l, w1))
    (hread : env.ReadAllStdin w1 = (.error e, w2)) :
    (∃ err, (run env ["-"] opts false s).1 = (.nil, some err) ∧
      err.Unwrap = some e ∧ err.Error = "could not read stdin: " ++ e.Error) ∧
    newEvents s (run env ["-"] opts false s).2 = [.newLinter opts, .readStdin] ∧
    (∀ path b pr, Event.lint path b pr ∉ newEvents s (run env ["-"] opts false s).2) ∧
    (∀ (f : Flags) (s0 s1 : St σ R P) (ip : Option R),
      f.ver = false → f.initConfig = false → compileIgnore env f s0 = .ok (ip, s1) →
      opts = f.toOpts ip → s = s1.emit (.callRun ["-"] opts false) →
      main env (.parsed f ["-"]) s0 = (1, (run env ["-"] opts false s).2.emit
        (.stderr ("could not read stdin: " ++ e.Error ++ "\n")))) := by
  have h := run_stdin_error_eq env opts s l w1 e w2 hnew hread
  have hev : newEvents s (run env ["-"] opts false s).2 = [.newLinter opts, .readStdin] :=
    newEvents_append _ _ _ (by rw [h])
  refine ⟨⟨errorfW "could not read stdin: " e, by rw [h], rfl, rfl⟩, hev, ?_, ?_⟩
  · intro path b pr
    rw [hev]
    simp
  · intro f s0 s1 ip hver hic hc hopts hs
    subst hopts hs
    rw [main_of_compile_ok env f ["-"] s0 s1 ip hver hc, hic, h]
    simp [errorfW, GoError.Error]

/-- Instance of C8: standard input cannot be read. -/
theorem run_stdin_read_failure_witness :
    (run demoEnv ["-"] (flagDefaults.toOpts none) false
        (demoBrokenStdin.emit (.callRun ["-"] (flagDefaults.toOpts none) false))).1
      = (.nil, some (.wrap "could not read stdin: read /dev/stdin: input/output error"
          (.leaf "read /dev/stdin: input/output error"))) ∧
    (main demoEnv (.parsed flagDefaults ["-"]) demoBrokenStdin).1 = 1 :=
  have h := run_stdin_read_failure demoEnv (flagDefaults.toOpts none)
    (demoBrokenStdin.emit (.callRun ["-"] (flagDefaults.toOpts none) false))
    (flagDefaults.toOpts none)
    { stdin := .error (.leaf "read /dev/stdin: input/output error"), steps := 1 }
    (.leaf "read /dev/stdin: input/output error")
    { stdin := .error (.leaf "read /dev/stdin: input/output error"), steps := 2 } rfl rfl
  ⟨rfl,
   congrArg Prod.fst (h.2.2.2 flagDefaults demoBrokenStdin demoBrokenStdin none rfl rfl rfl
    rfl rfl)⟩

end MainClaims

end Actionlint
